import Mathlib

/-!
# Verification of the calendar OAuth backend (api-express)

Shallow embedding of the hard core of the repository:

* the Availability Engine (`EventService.getAvailableTimeSlots`,
  src/services/eventService.ts lines 793-868);
* the Credential Lifecycle Manager (`AuthService.getUserWithGoogleToken`,
  src/services/authService.ts lines 511-617, and the middleware
  `checkGoogleTokenValidity`, src/middleware/auth.ts lines 152-270);
* the Authorization Handshake (`TelegramService.handleTelegramOAuthCallback`,
  src/services/telegramService.ts lines 107-234, and
  `AuthService.handleGoogleOAuthCallback`, src/services/authService.ts
  lines 79-506).

Times are absolute epoch milliseconds modelled as `Int` (JavaScript `Date`
arithmetic is integral at the millisecond granularity used here).  Remote
calls (Google token exchange / refresh / userinfo) and database write
successes are oracles passed as explicit arguments; each embedded operation
returns its result together with the new database state and counters for
the observable effects (remote calls performed, credential writes).
-/

/-! ## Availability engine

`EventService.getAvailableTimeSlots` builds `busySlots` from the calendar
events and then runs a while loop from `startOfDay`, stepping 15 minutes,
emitting every candidate `[currentTime, currentTime + slotDuration]` that
fits in the window and does not overlap a busy slot.  The field `end` of a
busy interval is called `stop` here (`end` is a Lean keyword). -/

structure BusyInterval where
  start : Int
  stop : Int
deriving DecidableEq, Repr

structure Slot where
  start : Int
  stop : Int
deriving DecidableEq, Repr

/-- The `isAvailable` test of the source (lines 839-843): the candidate
`[currentTime, slotEnd]` is available iff no busy slot satisfies
`(currentTime >= busy.start && currentTime < busy.end) ||
 (slotEnd > busy.start && slotEnd <= busy.end) ||
 (currentTime <= busy.start && slotEnd >= busy.end)`. -/
def isAvailable (busySlots : List BusyInterval) (currentTime slotEnd : Int) : Bool :=
  ! busySlots.any (fun busy =>
      decide ((currentTime ≥ busy.start ∧ currentTime < busy.stop) ∨
              (slotEnd > busy.start ∧ slotEnd ≤ busy.stop) ∨
              (currentTime ≤ busy.start ∧ slotEnd ≥ busy.stop)))

/-- The while loop of lines 836-856: while
`currentTime + slotDuration <= endOfDay`, push the candidate when
available and advance by 15 minutes (`15 * 60000` ms). -/
def genSlots (busySlots : List BusyInterval) (slotDuration endOfDay currentTime : Int) :
    List Slot :=
  if h : currentTime + slotDuration ≤ endOfDay then
    (if isAvailable busySlots currentTime (currentTime + slotDuration) then
        [⟨currentTime, currentTime + slotDuration⟩]
      else []) ++
      genSlots busySlots slotDuration endOfDay (currentTime + 15 * 60000)
  else []
termination_by (endOfDay - slotDuration - currentTime + 15 * 60000).toNat
decreasing_by simp_wf; omega

/-- `EventService.getAvailableTimeSlots`: `slotDuration` is
`parseInt(duration) * 60000` ms (line 833); the loop starts at
`startOfDay`. -/
def getAvailableTimeSlots (busySlots : List BusyInterval)
    (startOfDay endOfDay durationMinutes : Int) : List Slot :=
  genSlots busySlots (durationMinutes * 60000) endOfDay startOfDay

theorem isAvailable_eq_true_iff (busySlots : List BusyInterval) (s e : Int) :
    isAvailable busySlots s e = true ↔
      ∀ b ∈ busySlots,
        ¬((s ≥ b.start ∧ s < b.stop) ∨ (e > b.start ∧ e ≤ b.stop) ∨
          (s ≤ b.start ∧ e ≥ b.stop)) := by
  simp [isAvailable]

/-- The three-disjunct overlap test of the source coincides with the
spec's `candidate.start < busy.end && candidate.end > busy.start` whenever
the candidate and the busy interval are both nonempty. -/
theorem overlap_pointwise (b : BusyInterval) (s e : Int)
    (hse : s < e) (hb : b.start < b.stop) :
    ((s ≥ b.start ∧ s < b.stop) ∨ (e > b.start ∧ e ≤ b.stop) ∨
      (s ≤ b.start ∧ e ≥ b.stop)) ↔ (s < b.stop ∧ b.start < e) := by
  omega

/-- Soundness of the loop: every emitted slot is a 15-minute-stepped
candidate that fits in the window and passes `isAvailable`. -/
theorem genSlots_mem_sound (busySlots : List BusyInterval)
    (slotDuration endOfDay : Int) :
    ∀ currentTime s e, Slot.mk s e ∈ genSlots busySlots slotDuration endOfDay currentTime →
      e = s + slotDuration ∧ s + slotDuration ≤ endOfDay ∧
        isAvailable busySlots s e = true ∧ ∃ k : Nat, s = currentTime + 15 * 60000 * k := by
  intro currentTime
  generalize hμ : (endOfDay - slotDuration - currentTime + 15 * 60000).toNat = μ
  induction μ using Nat.strong_induction_on generalizing currentTime with
  | _ μ ih =>
    intro s e hmem
    rw [genSlots.eq_def] at hmem
    split at hmem
    · rename_i hcond
      rw [List.mem_append] at hmem
      rcases hmem with hmem | hmem
      · split at hmem
        · rename_i hav
          simp only [List.mem_singleton, Slot.mk.injEq] at hmem
          obtain ⟨rfl, rfl⟩ := hmem
          exact ⟨rfl, hcond, hav, 0, by simp⟩
        · simp at hmem
      · have hrec := ih ((endOfDay - slotDuration - (currentTime + 15 * 60000) + 15 * 60000).toNat)
          (by omega) (currentTime + 15 * 60000) rfl s e hmem
        obtain ⟨h1, h2, h3, k, hk⟩ := hrec
        refine ⟨h1, h2, h3, k + 1, ?_⟩
        push_cast at hk ⊢
        omega
    · simp at hmem

/-- Completeness of the loop: every 15-minute-stepped candidate that fits
in the window and passes `isAvailable` is emitted. -/
theorem genSlots_mem_complete (busySlots : List BusyInterval)
    (slotDuration endOfDay : Int) :
    ∀ (k : Nat) (currentTime s : Int), s = currentTime + 15 * 60000 * (k : Int) →
      s + slotDuration ≤ endOfDay →
      isAvailable busySlots s (s + slotDuration) = true →
      Slot.mk s (s + slotDuration) ∈ genSlots busySlots slotDuration endOfDay currentTime := by
  intro k
  induction k with
  | zero =>
    intro currentTime s hs hfit hav
    have hs' : s = currentTime := by push_cast at hs; omega
    subst hs'
    rw [genSlots.eq_def, dif_pos hfit]
    rw [if_pos hav]
    simp
  | succ k ih =>
    intro currentTime s hs hfit hav
    have hge : currentTime + slotDuration ≤ endOfDay := by push_cast at hs; omega
    rw [genSlots.eq_def, dif_pos hge]
    refine List.mem_append_right _ ?_
    exact ih (currentTime + 15 * 60000) s (by push_cast at hs ⊢; omega) hfit hav

/-- **C8.** If `slotDuration` exceeds the window length, the result is the
empty list (the loop body is never entered), and no error is raised: the
embedded function is total. -/
theorem getAvailableTimeSlots_empty_of_long_duration
    (busySlots : List BusyInterval) (startOfDay endOfDay durationMinutes : Int)
    (h : endOfDay - startOfDay < durationMinutes * 60000) :
    getAvailableTimeSlots busySlots startOfDay endOfDay durationMinutes = [] := by
  rw [getAvailableTimeSlots, genSlots.eq_def, dif_neg (by omega)]

/-- Witness for C8 at a concrete input: a 1000 ms window with a one-minute
slot duration yields no slots. -/
theorem getAvailableTimeSlots_empty_of_long_duration_witness :
    ((1000 : Int) - 0 < 1 * 60000) ∧
      getAvailableTimeSlots [] 0 1000 1 = [] :=
  ⟨by norm_num,
    getAvailableTimeSlots_empty_of_long_duration [] 0 1000 1 (by norm_num)⟩

/-- **C5 (amended).** For nonempty busy intervals (`start < stop`) and a
positive slot duration, a 15-minute-stepped candidate `[t, t + duration]`
that fits in the window is emitted iff it overlaps no busy interval under
the predicate `candidate.start < busy.end && candidate.end > busy.start`. -/
theorem getAvailableTimeSlots_free_iff
    (busySlots : List BusyInterval) (startOfDay endOfDay durationMinutes t : Int)
    (hdur : 0 < durationMinutes)
    (hbusy : ∀ b ∈ busySlots, b.start < b.stop)
    (k : Nat) (hstep : t = startOfDay + 15 * 60000 * (k : Int))
    (hfit : t + durationMinutes * 60000 ≤ endOfDay) :
    Slot.mk t (t + durationMinutes * 60000) ∈
        getAvailableTimeSlots busySlots startOfDay endOfDay durationMinutes ↔
      ∀ b ∈ busySlots, ¬(t < b.stop ∧ b.start < t + durationMinutes * 60000) := by
  have hse : t < t + durationMinutes * 60000 := by omega
  constructor
  · intro hmem
    obtain ⟨-, -, hav, -⟩ :=
      genSlots_mem_sound busySlots (durationMinutes * 60000) endOfDay startOfDay t
        (t + durationMinutes * 60000) hmem
    intro b hb
    have hcode := (isAvailable_eq_true_iff busySlots t (t + durationMinutes * 60000)).mp hav b hb
    exact fun hspec => hcode ((overlap_pointwise b t _ hse (hbusy b hb)).mpr hspec)
  · intro hfree
    refine genSlots_mem_complete busySlots (durationMinutes * 60000) endOfDay k startOfDay t
      hstep hfit ?_
    refine (isAvailable_eq_true_iff busySlots t (t + durationMinutes * 60000)).mpr ?_
    intro b hb hcode
    exact hfree b hb ((overlap_pointwise b t _ hse (hbusy b hb)).mp hcode)

/-- Witness for C5 at the spec's own example, with times as milliseconds
from midnight: window 09:00-17:00 (`32400000`-`61200000`), duration 60
minutes, busy 12:00-13:00 (`43200000`-`46800000`).  The candidates
starting 11:00 (`39600000`) and 13:00 (`46800000`) are emitted; 11:15
(`40500000`) and 12:00 (`43200000`) are not. -/
theorem getAvailableTimeSlots_free_iff_witness :
    (Slot.mk 39600000 43200000 ∈
        getAvailableTimeSlots [⟨43200000, 46800000⟩] 32400000 61200000 60) ∧
      (Slot.mk 46800000 50400000 ∈
        getAvailableTimeSlots [⟨43200000, 46800000⟩] 32400000 61200000 60) ∧
      (Slot.mk 40500000 44100000 ∉
        getAvailableTimeSlots [⟨43200000, 46800000⟩] 32400000 61200000 60) ∧
      (Slot.mk 43200000 46800000 ∉
        getAvailableTimeSlots [⟨43200000, 46800000⟩] 32400000 61200000 60) := by
  refine ⟨?_, ?_, ?_, ?_⟩
  · exact (getAvailableTimeSlots_free_iff [⟨43200000, 46800000⟩] 32400000 61200000 60
      39600000 (by norm_num) (by intro b hb; simp at hb; subst hb; norm_num) 8
      (by norm_num) (by norm_num)).mpr
      (by intro b hb; simp at hb; subst hb; simp)
  · exact (getAvailableTimeSlots_free_iff [⟨43200000, 46800000⟩] 32400000 61200000 60
      46800000 (by norm_num) (by intro b hb; simp at hb; subst hb; norm_num) 16
      (by norm_num) (by norm_num)).mpr
      (by intro b hb; simp at hb; subst hb; simp)
  · intro hmem
    have := (getAvailableTimeSlots_free_iff [⟨43200000, 46800000⟩] 32400000 61200000 60
      40500000 (by norm_num) (by intro b hb; simp at hb; subst hb; norm_num) 9
      (by norm_num) (by norm_num)).mp hmem ⟨43200000, 46800000⟩ (by simp)
    exact this (by norm_num)
  · intro hmem
    have := (getAvailableTimeSlots_free_iff [⟨43200000, 46800000⟩] 32400000 61200000 60
      43200000 (by norm_num) (by intro b hb; simp at hb; subst hb; norm_num) 12
      (by norm_num) (by norm_num)).mp hmem ⟨43200000, 46800000⟩ (by simp)
    exact this (by norm_num)

/-- **C5 (counterexample).** With a zero-length busy interval the claimed
equivalence fails: for window 12:00-13:00, duration 60, and the degenerate
busy interval 12:00-12:00, the spec predicate reports no overlap for the
candidate starting 12:00 (its `candidate.start < busy.end` conjunct is
false), yet the code's third disjunct
`currentTime <= busy.start && slotEnd >= busy.end` holds, so the slot is
not emitted. -/
theorem freeSlots_degenerate_busy_interval_mismatch :
    ¬(Slot.mk 43200000 46800000 ∈
        getAvailableTimeSlots [⟨43200000, 43200000⟩] 43200000 46800000 60 ↔
      ∀ b ∈ [BusyInterval.mk 43200000 43200000],
        ¬((43200000 : Int) < b.stop ∧ b.start < 46800000)) := by
  intro hiff
  have hmem := hiff.mpr (by intro b hb; simp at hb; subst hb; simp)
  obtain ⟨-, -, hav, -⟩ :=
    genSlots_mem_sound [⟨43200000, 43200000⟩] (60 * 60000) 46800000 43200000
      43200000 46800000 (by simpa [getAvailableTimeSlots] using hmem)
  have := (isAvailable_eq_true_iff [⟨43200000, 43200000⟩] 43200000 46800000).mp hav
    ⟨43200000, 43200000⟩ (by simp)
  exact this (by norm_num)

/-! ## Credential lifecycle manager

`AuthService.getUserWithGoogleToken` (src/services/authService.ts lines
511-617) loads the `users` row, returns it unchanged when the access token
is not within the 5-minute buffer of expiry, and otherwise calls
`refreshAccessToken` and persists the refreshed triple to both the `users`
and `tenant_tokens` rows in one update statement each.  Token strings are
`Option String` (`none` models SQL null / JS undefined or empty-falsy
values); expiry timestamps are `Option Int` epoch milliseconds. -/

structure UserProfile where
  id : String
  email : String
  full_name : String
  google_id : Option String
  avatar_url : Option String
  google_access_token : Option String
  google_refresh_token : Option String
  token_expires_at : Option Int
deriving DecidableEq, Repr

/-- A `tenant_tokens` row (minus `tenant_id`, which is the association key
where it matters, and bookkeeping `updated_at`). -/
structure TenantTokenRecord where
  access_token : Option String
  refresh_token : Option String
  expiry_date : Option Int
deriving DecidableEq, Repr

/-- Payload of a successful remote token call (`getToken` exchange or
`refreshAccessToken`): Google's `tokens` / `credentials` object. -/
structure OAuthTokens where
  access_token : Option String
  refresh_token : Option String
  expiry_date : Option Int
deriving DecidableEq, Repr

/-- A failed remote refresh, as observed by the catch block:
`code` is `refreshError.code` (`0` models an absent code) and
`invalid_grant` is `refreshError.message.includes('invalid_grant')`. -/
structure RefreshError where
  code : Int
  invalid_grant : Bool
deriving DecidableEq, Repr

/-- Oracle for the `refreshAccessToken` remote call. -/
inductive RefreshOutcome where
  | ok (credentials : OAuthTokens)
  | err (e : RefreshError)
deriving DecidableEq, Repr

/-- Errors surfaced by `getUserWithGoogleToken` (thrown `Error`s):
`userNotFound` = "ChatGPT user not found"; `noAccessToken` = "No Google
access token found for ChatGPT user"; `noRefreshToken` = "Token expired
and no refresh token available"; `invalidGrant` = "Refresh token is
invalid - user needs to re-authenticate" (the ReauthRequired class);
`transientRefresh` = "Failed to refresh Google token: ..." including a
failed persistence of the refreshed triple. -/
inductive AcquireError where
  | userNotFound
  | noAccessToken
  | noRefreshToken
  | invalidGrant
  | transientRefresh
deriving DecidableEq, Repr

/-- The 5-minute skew buffer (`bufferTime` in the source, line 531). -/
def bufferTime : Int := 5 * 60 * 1000

/-- The refreshed triple that lines 558-584 write, in one update
statement, into a `users` row: all three columns are set in the same
write (`updated_at` is bookkeeping and not modelled). -/
def applyRefreshWrite (row : UserProfile) (newAccess : String)
    (newRefresh : Option String) (newExpiry : Option Int) : UserProfile :=
  { row with
    google_access_token := some newAccess,
    google_refresh_token := newRefresh,
    token_expires_at := newExpiry }

/-- The triple a successful refresh persists. -/
structure RefreshWritePayload where
  access : String
  refresh : Option String
  expiry : Option Int
deriving DecidableEq, Repr

/-- The body of `getUserWithGoogleToken` after the initial `users` select
(lines 522-616), acting on the loaded snapshot: decides whether to
refresh, classifies refresh failures, and returns the result together
with the triple to persist (if any) and the number of remote refresh
calls made.  `credentials.refresh_token || user.google_refresh_token`
(line 564) keeps the stored refresh token when the provider does not
rotate it. -/
def acquireCore (user : UserProfile) (now : Int) (ro : RefreshOutcome) :
    Except AcquireError UserProfile × Option RefreshWritePayload × Nat :=
  match user.google_access_token with
  | none => (.error .noAccessToken, none, 0)
  | some _ =>
    match user.token_expires_at with
    | none => (.ok user, none, 0)
    | some expiry =>
      if now > expiry - bufferTime then
        match user.google_refresh_token with
        | none => (.error .noRefreshToken, none, 0)
        | some storedRefreshToken =>
          match ro with
          | .err e =>
            if e.code = 400 ∨ e.invalid_grant then (.error .invalidGrant, none, 1)
            else (.error .transientRefresh, none, 1)
          | .ok credentials =>
            match credentials.access_token with
            | none => (.error .transientRefresh, none, 1)
            | some newAccess =>
              let payload : RefreshWritePayload :=
                ⟨newAccess, some (credentials.refresh_token.getD storedRefreshToken),
                  credentials.expiry_date⟩
              (.ok (applyRefreshWrite user payload.access payload.refresh payload.expiry),
                some payload, 1)
      else (.ok user, none, 0)

/-- The database rows `getUserWithGoogleToken` touches for one user: the
`users` row (by id) and the `tenant_tokens` row (by tenant_id = user id). -/
structure AcquireState where
  user : Option UserProfile
  tenant_token : Option TenantTokenRecord
deriving DecidableEq, Repr

structure AcquireOutcome where
  result : Except AcquireError UserProfile
  state : AcquireState
  remoteCalls : Nat
deriving Repr

/-- `AuthService.getUserWithGoogleToken` (lines 511-617).  `usersWriteOk`
and `tenantWriteOk` are the success oracles of the two updates issued by
`Promise.all` (lines 558-586); both are attempted, and a failure of
either turns the result into the generic refresh failure (line 591)
while leaving the successful write committed. -/
def getUserWithGoogleToken (st : AcquireState) (now : Int) (ro : RefreshOutcome)
    (usersWriteOk tenantWriteOk : Bool) : AcquireOutcome :=
  match st.user with
  | none => ⟨.error .userNotFound, st, 0⟩
  | some user =>
    match acquireCore user now ro with
    | (res, none, n) => ⟨res, st, n⟩
    | (res, some payload, n) =>
      let st1 :=
        if usersWriteOk then
          { st with user := some (applyRefreshWrite user payload.access
              payload.refresh payload.expiry) }
        else st
      let st2 :=
        if tenantWriteOk then
          { st1 with tenant_token := st1.tenant_token.map (fun _ =>
              ⟨some payload.access, payload.refresh, payload.expiry⟩) }
        else st1
      if usersWriteOk && tenantWriteOk then ⟨res, st2, n⟩
      else ⟨.error .transientRefresh, st2, n⟩

/-! ## The `requireGoogleAuth` middleware refresh path

`checkGoogleTokenValidity` (src/middleware/auth.ts lines 152-270)
standardizes the stored credential into `tokenInfo` with the
`tenant_tokens` column names and refreshes when
`new Date() > new Date(expiry - 5min)` — treating a **null** expiry as
expired (line 205: the ternary defaults `isTokenExpired` to `true`). -/

inductive MiddlewareResponse where
  | next
  | unauthorized (msg : String)
deriving DecidableEq, Repr

structure MiddlewareOutcome where
  response : MiddlewareResponse
  row : TenantTokenRecord
  remoteCalls : Nat
deriving DecidableEq, Repr

/-- `checkGoogleTokenValidity`, acting on the standardized `tokenInfo`
row (`row` is the backing table row it updates; `writeOk` is the update's
success oracle — a failed update is caught by the inner catch and turned
into the same 401). -/
def checkGoogleTokenValidity (tokenInfo : TenantTokenRecord) (now : Int)
    (ro : RefreshOutcome) (writeOk : Bool) : MiddlewareOutcome :=
  match tokenInfo.access_token with
  | none => ⟨.unauthorized "Google authentication required", tokenInfo, 0⟩
  | some _ =>
    let isTokenExpired :=
      match tokenInfo.expiry_date with
      | some expiry => decide (now > expiry - 5 * 60 * 1000)
      | none => true
    if isTokenExpired then
      match tokenInfo.refresh_token with
      | none =>
        ⟨.unauthorized "Google token expired and no refresh token is available.",
          tokenInfo, 0⟩
      | some _ =>
        match ro with
        | .err _ =>
          ⟨.unauthorized "Failed to refresh Google token. Please re-authenticate.",
            tokenInfo, 1⟩
        | .ok newTokens =>
          let updated : TenantTokenRecord :=
            { access_token := newTokens.access_token,
              refresh_token :=
                match newTokens.refresh_token with
                | some newRefresh => some newRefresh
                | none => tokenInfo.refresh_token,
              expiry_date := newTokens.expiry_date }
          if writeOk then ⟨.next, updated, 1⟩
          else
            ⟨.unauthorized "Failed to refresh Google token. Please re-authenticate.",
              tokenInfo, 1⟩
    else ⟨.next, tokenInfo, 0⟩

/-- **C2.** When the remote refresh fails with an invalid-grant class
error (`code === 400` or a message containing `invalid_grant`), acquire
fails with the ReauthRequired error ("Refresh token is invalid - user
needs to re-authenticate") and both stored credential rows are left
exactly as they were: no write is issued. -/
theorem acquire_invalid_grant_leaves_credential_intact
    (uid em fn : String) (gid av : Option String) (a storedRefreshToken : String)
    (trow : Option TenantTokenRecord) (now expiry : Int) (er : RefreshError)
    (uwk twk : Bool)
    (hexpired : now > expiry - bufferTime)
    (hclass : er.code = 400 ∨ er.invalid_grant = true) :
    getUserWithGoogleToken
        ⟨some ⟨uid, em, fn, gid, av, some a, some storedRefreshToken, some expiry⟩, trow⟩
        now (.err er) uwk twk =
      ⟨.error .invalidGrant,
        ⟨some ⟨uid, em, fn, gid, av, some a, some storedRefreshToken, some expiry⟩, trow⟩,
        1⟩ := by
  simp [getUserWithGoogleToken, acquireCore, hexpired, hclass]

/-- Witness for C2: a concrete expired credential and a 400-class refresh
failure. -/
theorem acquire_invalid_grant_leaves_credential_intact_witness :
    ((10 : Int) > 1 - bufferTime) ∧
      getUserWithGoogleToken
          ⟨some ⟨"u", "e@x", "f", none, none, some "olda", some "r", some 1⟩,
            some ⟨some "olda", some "r", some 1⟩⟩
          10 (.err ⟨400, false⟩) true true =
        ⟨.error .invalidGrant,
          ⟨some ⟨"u", "e@x", "f", none, none, some "olda", some "r", some 1⟩,
            some ⟨some "olda", some "r", some 1⟩⟩,
          1⟩ :=
  ⟨by norm_num [bufferTime],
    acquire_invalid_grant_leaves_credential_intact "u" "e@x" "f" none none "olda" "r"
      (some ⟨some "olda", some "r", some 1⟩) 10 1 ⟨400, false⟩ true true
      (by norm_num [bufferTime]) (Or.inl rfl)⟩

/-- **C3 (amended).** `AuthService.getUserWithGoogleToken` returns the
stored access token unchanged with no remote call both when the stored
expiry is null and when it is more than the 5-minute buffer in the
future; the middleware `checkGoogleTokenValidity` does so only in the
latter case (a null expiry makes it attempt a refresh, see the
counterexample). -/
theorem acquire_fresh_or_null_expiry_no_refresh
    (uid em fn : String) (gid av rt : Option String) (a : String)
    (trow : Option TenantTokenRecord) (now expiry : Int) (ro : RefreshOutcome)
    (uwk twk wok : Bool)
    (hfresh : now + bufferTime < expiry) :
    (getUserWithGoogleToken ⟨some ⟨uid, em, fn, gid, av, some a, rt, none⟩, trow⟩
        now ro uwk twk =
      ⟨.ok ⟨uid, em, fn, gid, av, some a, rt, none⟩,
        ⟨some ⟨uid, em, fn, gid, av, some a, rt, none⟩, trow⟩, 0⟩) ∧
    (getUserWithGoogleToken ⟨some ⟨uid, em, fn, gid, av, some a, rt, some expiry⟩, trow⟩
        now ro uwk twk =
      ⟨.ok ⟨uid, em, fn, gid, av, some a, rt, some expiry⟩,
        ⟨some ⟨uid, em, fn, gid, av, some a, rt, some expiry⟩, trow⟩, 0⟩) ∧
    (checkGoogleTokenValidity ⟨some a, rt, some expiry⟩ now ro wok =
      ⟨.next, ⟨some a, rt, some expiry⟩, 0⟩) := by
  have hnot : ¬(now > expiry - bufferTime) := by omega
  refine ⟨?_, ?_, ?_⟩
  · simp [getUserWithGoogleToken, acquireCore]
  · simp [getUserWithGoogleToken, acquireCore, hnot]
  · have hb : bufferTime = 300000 := rfl
    have hnot' : ¬(expiry - 300000 < now) := by omega
    simp [checkGoogleTokenValidity, hnot']

/-- Witness for C3 (amended) at concrete inputs: expiry 10^9 ms, now 0. -/
theorem acquire_fresh_or_null_expiry_no_refresh_witness :
    ((0 : Int) + bufferTime < 1000000000) ∧
      (getUserWithGoogleToken
          ⟨some ⟨"u", "e@x", "f", none, none, some "tok", some "r", none⟩, none⟩
          0 (.ok ⟨some "new", none, none⟩) true true =
        ⟨.ok ⟨"u", "e@x", "f", none, none, some "tok", some "r", none⟩,
          ⟨some ⟨"u", "e@x", "f", none, none, some "tok", some "r", none⟩, none⟩, 0⟩) ∧
      (getUserWithGoogleToken
          ⟨some ⟨"u", "e@x", "f", none, none, some "tok", some "r", some 1000000000⟩, none⟩
          0 (.ok ⟨some "new", none, none⟩) true true =
        ⟨.ok ⟨"u", "e@x", "f", none, none, some "tok", some "r", some 1000000000⟩,
          ⟨some ⟨"u", "e@x", "f", none, none, some "tok", some "r", some 1000000000⟩, none⟩,
          0⟩) ∧
      (checkGoogleTokenValidity ⟨some "tok", some "r", some 1000000000⟩ 0
          (.ok ⟨some "new", none, none⟩) true =
        ⟨.next, ⟨some "tok", some "r", some 1000000000⟩, 0⟩) :=
  ⟨by norm_num [bufferTime],
    acquire_fresh_or_null_expiry_no_refresh "u" "e@x" "f" none none (some "r") "tok" none
      0 1000000000 (.ok ⟨some "new", none, none⟩) true true true
      (by norm_num [bufferTime])⟩

/-- **C3 (counterexample).** A stored credential with a *null* expiry,
presented to the middleware refresh path: line 205 of
src/middleware/auth.ts defaults `isTokenExpired` to `true` when
`expiry_date` is null, so a remote refresh call *is* performed, refuting
"for every stored credential whose expiry is null ... no remote refresh
call". -/
theorem middleware_null_expiry_triggers_refresh :
    (checkGoogleTokenValidity ⟨some "tok", some "r", none⟩ 0
        (.ok ⟨some "new", none, some 999999999⟩) true).remoteCalls = 1 := rfl

/-- **C6.** On a successful refresh both persistence paths write the full
triple in one single-row update: the new access token and new expiry are
stored, and the refresh token is replaced exactly when the provider
returned one (`newRefresh.getD storedRefreshToken`), otherwise retained.
Covers `getUserWithGoogleToken` (users + tenant_tokens rows) and the
middleware update path. -/
theorem refresh_persists_rotated_credential
    (uid em fn : String) (gid av : Option String)
    (a storedRefreshToken newAccess : String)
    (newRefresh : Option String) (newExpiry : Option Int)
    (trow : TenantTokenRecord) (now expiry : Int)
    (hexpired : now > expiry - bufferTime) :
    (getUserWithGoogleToken
        ⟨some ⟨uid, em, fn, gid, av, some a, some storedRefreshToken, some expiry⟩,
          some trow⟩
        now (.ok ⟨some newAccess, newRefresh, newExpiry⟩) true true =
      ⟨.ok ⟨uid, em, fn, gid, av, some newAccess,
          some (newRefresh.getD storedRefreshToken), newExpiry⟩,
        ⟨some ⟨uid, em, fn, gid, av, some newAccess,
            some (newRefresh.getD storedRefreshToken), newExpiry⟩,
          some ⟨some newAccess, some (newRefresh.getD storedRefreshToken), newExpiry⟩⟩,
        1⟩) ∧
    (checkGoogleTokenValidity ⟨some a, some storedRefreshToken, some expiry⟩ now
        (.ok ⟨some newAccess, newRefresh, newExpiry⟩) true =
      ⟨.next, ⟨some newAccess, some (newRefresh.getD storedRefreshToken), newExpiry⟩,
        1⟩) := by
  have hb : bufferTime = 300000 := rfl
  have hexpired' : expiry - 300000 < now := by omega
  constructor
  · cases newRefresh <;>
      simp [getUserWithGoogleToken, acquireCore, applyRefreshWrite, hexpired]
  · cases newRefresh <;> simp [checkGoogleTokenValidity, hexpired']

/-- Witness for C6: both the retention case (provider returns no refresh
token) and the rotation case (provider returns a new one), at concrete
inputs. -/
theorem refresh_persists_rotated_credential_witness :
    ((10 : Int) > 1 - bufferTime) ∧
      (getUserWithGoogleToken
          ⟨some ⟨"u", "e@x", "f", none, none, some "olda", some "r", some 1⟩,
            some ⟨some "olda", some "r", some 1⟩⟩
          10 (.ok ⟨some "newa", none, some 7⟩) true true =
        ⟨.ok ⟨"u", "e@x", "f", none, none, some "newa", some "r", some 7⟩,
          ⟨some ⟨"u", "e@x", "f", none, none, some "newa", some "r", some 7⟩,
            some ⟨some "newa", some "r", some 7⟩⟩, 1⟩) ∧
      (getUserWithGoogleToken
          ⟨some ⟨"u", "e@x", "f", none, none, some "olda", some "r", some 1⟩,
            some ⟨some "olda", some "r", some 1⟩⟩
          10 (.ok ⟨some "newa", some "r2", some 7⟩) true true =
        ⟨.ok ⟨"u", "e@x", "f", none, none, some "newa", some "r2", some 7⟩,
          ⟨some ⟨"u", "e@x", "f", none, none, some "newa", some "r2", some 7⟩,
            some ⟨some "newa", some "r2", some 7⟩⟩, 1⟩) :=
  ⟨by norm_num [bufferTime],
    (refresh_persists_rotated_credential "u" "e@x" "f" none none "olda" "r" "newa"
        none (some 7) ⟨some "olda", some "r", some 1⟩ 10 1
        (by norm_num [bufferTime])).1,
    (refresh_persists_rotated_credential "u" "e@x" "f" none none "olda" "r" "newa"
        (some "r2") (some 7) ⟨some "olda", some "r", some 1⟩ 10 1
        (by norm_num [bufferTime])).1⟩

/-! ## Concurrent acquire

`getUserWithGoogleToken` holds no lock: each request loads the `users`
row (`await supabase...select`, line 512) and then — if the snapshot it
loaded is within the expiry buffer — performs its own
`refreshAccessToken` call and writes the refreshed triple back.  We model
two concurrent callers of the same tenant as an interleaving of two
atomic phases per caller: the load, and the remainder of the function
(`acquireCore` on the loaded snapshot, followed by its write).  The
shared state is the tenant's `users` row; `remoteCalls` counts
`refreshAccessToken` invocations across both callers. -/

inductive CallerPhase where
  | ready
  | loaded (snapshot : UserProfile)
  | finished (result : Except AcquireError UserProfile)
deriving Repr

structure ConcState where
  row : UserProfile
  caller1 : CallerPhase
  caller2 : CallerPhase
  remoteCalls : Nat
deriving Repr

/-- One step of one caller: `ready` performs the select; `loaded` runs
the rest of `getUserWithGoogleToken` (via `acquireCore`) on its snapshot
and applies the resulting write (write oracle taken as succeeding). -/
def stepCaller (now : Int) (ro : RefreshOutcome) (phase : CallerPhase)
    (row : UserProfile) : CallerPhase × UserProfile × Nat :=
  match phase with
  | .ready => (.loaded row, row, 0)
  | .loaded snapshot =>
    match acquireCore snapshot now ro with
    | (res, none, n) => (.finished res, row, n)
    | (res, some payload, n) =>
      (.finished res, applyRefreshWrite row payload.access payload.refresh payload.expiry, n)
  | .finished res => (.finished res, row, 0)

def stepConc (now : Int) (ro : RefreshOutcome) (s : ConcState) (first : Bool) :
    ConcState :=
  if first then
    let (p, row, n) := stepCaller now ro s.caller1 s.row
    { s with caller1 := p, row := row, remoteCalls := s.remoteCalls + n }
  else
    let (p, row, n) := stepCaller now ro s.caller2 s.row
    { s with caller2 := p, row := row, remoteCalls := s.remoteCalls + n }

/-- Run both callers under a schedule (`true` = a step of caller 1). -/
def runConc (now : Int) (ro : RefreshOutcome) (schedule : List Bool)
    (s : ConcState) : ConcState :=
  schedule.foldl (stepConc now ro) s

/-- **C9 (amended).** There is no per-tenant mutex or singleflight: the
number of remote refresh calls per busy period equals the number of
callers whose loaded snapshot was still expired.  With an expired stored
credential and a present refresh token, the interleaving
load/load/refresh/refresh makes **two** remote refresh calls for two
callers, while the serialized interleaving load/refresh/load/return makes
one; in both interleavings both callers finish successfully (observing a
valid token). -/
theorem concurrent_acquire_refresh_counts
    (uid em fn : String) (gid av : Option String)
    (a storedRefreshToken newAccess : String) (now expiry newExpiry : Int)
    (hexpired : now > expiry - bufferTime)
    (hfreshNew : ¬(now > newExpiry - bufferTime)) :
    (let user : UserProfile :=
      ⟨uid, em, fn, gid, av, some a, some storedRefreshToken, some expiry⟩
     let ro : RefreshOutcome := .ok ⟨some newAccess, none, some newExpiry⟩
     let race := runConc now ro [true, false, true, false] ⟨user, .ready, .ready, 0⟩
     race.remoteCalls = 2 ∧
       (∃ u1, race.caller1 = .finished (.ok u1)) ∧
       (∃ u2, race.caller2 = .finished (.ok u2))) ∧
    (let user : UserProfile :=
      ⟨uid, em, fn, gid, av, some a, some storedRefreshToken, some expiry⟩
     let ro : RefreshOutcome := .ok ⟨some newAccess, none, some newExpiry⟩
     let serial := runConc now ro [true, true, false, false] ⟨user, .ready, .ready, 0⟩
     serial.remoteCalls = 1 ∧
       (∃ u1, serial.caller1 = .finished (.ok u1)) ∧
       (∃ u2, serial.caller2 = .finished (.ok u2))) := by
  constructor
  · simp [runConc, stepConc, stepCaller, acquireCore, applyRefreshWrite, hexpired]
  · simp [runConc, stepConc, stepCaller, acquireCore, applyRefreshWrite, hexpired,
      hfreshNew]

/-- Witness for C9 (amended) at concrete inputs. -/
theorem concurrent_acquire_refresh_counts_witness :
    ((10 : Int) > 1 - bufferTime) ∧ ¬((10 : Int) > 999999999 - bufferTime) ∧
      (let user : UserProfile :=
        ⟨"u", "e@x", "f", none, none, some "olda", some "r", some 1⟩
       let ro : RefreshOutcome := .ok ⟨some "newa", none, some 999999999⟩
       (runConc 10 ro [true, false, true, false] ⟨user, .ready, .ready, 0⟩).remoteCalls = 2 ∧
         (runConc 10 ro [true, true, false, false] ⟨user, .ready, .ready, 0⟩).remoteCalls = 1) := by
  refine ⟨by norm_num [bufferTime], by norm_num [bufferTime], ?_, ?_⟩
  · exact ((concurrent_acquire_refresh_counts "u" "e@x" "f" none none "olda" "r" "newa"
      10 1 999999999 (by norm_num [bufferTime]) (by norm_num [bufferTime])).1).1
  · exact ((concurrent_acquire_refresh_counts "u" "e@x" "f" none none "olda" "r" "newa"
      10 1 999999999 (by norm_num [bufferTime]) (by norm_num [bufferTime])).2).1

/-- **C9 (counterexample).** Two concurrent callers that both load the
expired credential before either refresh completes perform **two** remote
refresh calls in one busy period, refuting "exactly one remote refresh
call per busy period". -/
theorem concurrent_acquire_two_remote_calls :
    (runConc 10 (.ok ⟨some "newa", none, some 999999999⟩) [true, false, true, false]
        ⟨⟨"u", "e@x", "f", none, none, some "olda", some "r", some 1⟩,
          .ready, .ready, 0⟩).remoteCalls = 2 := rfl

/-! ## Telegram authorization handshake

`TelegramService.handleTelegramOAuthCallback` (src/services/
telegramService.ts lines 107-234).  The parsed `state` JSON is passed as
an `Option StateData` (`none` = `JSON.parse` threw); the remote token
exchange, the Google userinfo response and the row id assigned to an
inserted `telegram_users` row are oracles.  The write-success oracles
mirror which errors the source checks: the `telegram_users` insert and
update are checked (lines 178, 195), while the `telegram_sessions`
update (line 203) and the `tenant_tokens` upsert (line 212) are awaited
without inspecting their results. -/

structure StateData where
  type : String
  telegram_chat_id : Int
  session_token : String
deriving DecidableEq, Repr

structure TelegramSession where
  id : Nat
  telegram_chat_id : Int
  user_id : Option String
  session_token : String
  expires_at : Int
deriving DecidableEq, Repr

structure TelegramUserRecord where
  id : String
  telegram_chat_id : Int
  full_name : String
  username : Option String
  user_id : Option String
deriving DecidableEq, Repr

/-- Result of the Google `userinfo.get` remote call. -/
structure GoogleUserInfo where
  id : String
  email : Option String
  name : Option String
  picture : Option String
deriving DecidableEq, Repr

/-- Oracle for the `getToken(code)` exchange. -/
inductive ExchangeOutcome where
  | ok (tokens : OAuthTokens)
  | err
deriving DecidableEq, Repr

structure HandshakeDB where
  telegram_sessions : List TelegramSession
  telegram_users : List TelegramUserRecord
  tenant_tokens : List (String × TenantTokenRecord)
deriving DecidableEq, Repr

/-- Errors thrown by `handleTelegramOAuthCallback`:
`invalidState` = `JSON.parse` threw; `invalidStateType` = "Invalid state
type"; `invalidOrExpiredSession` = "Invalid or expired session";
`exchangeFailed` = `getToken` threw; `noAccessToken` = "No access token
received from Google"; `noEmail` = "No email provided by Google";
`createUserFailed` / `updateUserFailed` = the checked `telegram_users`
writes. -/
inductive HandshakeError where
  | invalidState
  | invalidStateType
  | invalidOrExpiredSession
  | exchangeFailed
  | noAccessToken
  | noEmail
  | createUserFailed
  | updateUserFailed
deriving DecidableEq, Repr

structure TelegramCallbackOutcome where
  result : Except HandshakeError TelegramUserRecord
  db : HandshakeDB
  exchangeCalls : Nat
  tenantTokenWrites : Nat
deriving Repr

/-- The session lookup predicate of lines 117-123:
`.eq("telegram_chat_id", ...)`, `.eq("session_token", ...)`,
`.gt("expires_at", now)`. -/
def sessionMatches (sd : StateData) (now : Int) (s : TelegramSession) : Bool :=
  s.telegram_chat_id == sd.telegram_chat_id &&
    s.session_token == sd.session_token && decide (now < s.expires_at)

/-- The `tenant_tokens` upsert with `onConflict: 'tenant_id'`. -/
def upsertTenantToken (rows : List (String × TenantTokenRecord)) (tenantId : String)
    (record : TenantTokenRecord) : List (String × TenantTokenRecord) :=
  if rows.any (fun p => p.1 == tenantId) then
    rows.map (fun p => if p.1 == tenantId then (tenantId, record) else p)
  else rows ++ [(tenantId, record)]

/-- Lines 202-228: after the Telegram user row is resolved, update the
session row's `user_id` (result ignored), upsert the credential into
`tenant_tokens` keyed by the Telegram user id (result ignored), and
return success with the resolved user record. -/
def afterUserResolved (db : HandshakeDB) (session : TelegramSession)
    (resolvedUser : TelegramUserRecord) (tokens : OAuthTokens)
    (sessionWriteOk tokenWriteOk : Bool) : TelegramCallbackOutcome :=
  let db1 :=
    if sessionWriteOk then
      { db with telegram_sessions := db.telegram_sessions.map (fun s =>
          if s.id == session.id then { s with user_id := some resolvedUser.id } else s) }
    else db
  let credential : TenantTokenRecord :=
    ⟨tokens.access_token, tokens.refresh_token, tokens.expiry_date⟩
  let db2 :=
    if tokenWriteOk then
      { db1 with tenant_tokens := upsertTenantToken db1.tenant_tokens resolvedUser.id credential }
    else db1
  ⟨.ok resolvedUser, db2, 1, if tokenWriteOk then 1 else 0⟩

/-- `TelegramService.handleTelegramOAuthCallback` (lines 107-234). -/
def handleTelegramOAuthCallback (db : HandshakeDB) (stateData : Option StateData)
    (now : Int) (exchange : ExchangeOutcome) (googleUser : GoogleUserInfo)
    (newUserId : String)
    (insertUserOk updateUserOk sessionWriteOk tokenWriteOk : Bool) :
    TelegramCallbackOutcome :=
  match stateData with
  | none => ⟨.error .invalidState, db, 0, 0⟩
  | some sd =>
    if sd.type ≠ "telegram_oauth" then ⟨.error .invalidStateType, db, 0, 0⟩
    else
      match db.telegram_sessions.find? (sessionMatches sd now) with
      | none => ⟨.error .invalidOrExpiredSession, db, 0, 0⟩
      | some session =>
        match exchange with
        | .err => ⟨.error .exchangeFailed, db, 1, 0⟩
        | .ok tokens =>
          match tokens.access_token with
          | none => ⟨.error .noAccessToken, db, 1, 0⟩
          | some _ =>
            match googleUser.email with
            | none => ⟨.error .noEmail, db, 1, 0⟩
            | some _ =>
              match db.telegram_users.find?
                  (fun u => u.telegram_chat_id == sd.telegram_chat_id) with
              | none =>
                if insertUserOk then
                  let newUser : TelegramUserRecord :=
                    ⟨newUserId, sd.telegram_chat_id, googleUser.name.getD "", none, none⟩
                  afterUserResolved
                    { db with telegram_users := db.telegram_users ++ [newUser] }
                    session newUser tokens sessionWriteOk tokenWriteOk
                else ⟨.error .createUserFailed, db, 1, 0⟩
              | some existingUser =>
                if updateUserOk then
                  let db1 := { db with telegram_users := db.telegram_users.map (fun u =>
                      if u.id == existingUser.id then
                        { u with full_name := googleUser.name.getD u.full_name }
                      else u) }
                  afterUserResolved db1 session existingUser tokens
                    sessionWriteOk tokenWriteOk
                else ⟨.error .updateUserFailed, db, 1, 0⟩

/-! ## ChatGPT OAuth callback

`AuthService.handleGoogleOAuthCallback` (src/services/authService.ts
lines 79-506).  The raw `state` string and the outcome of `JSON.parse` on
it are separate inputs (`parsedState = none` models a parse failure,
which the source treats as a ChatGPT request).  The Supabase
`auth.signUp` call is an oracle; reads are modelled as pure lookups. -/

structure ParsedState where
  type : String
deriving DecidableEq, Repr

/-- The `AuthResult` interface of the source. -/
structure AuthResult where
  success : Bool
  message : String
  token : Option String
  user : Option UserProfile
deriving Repr

/-- Oracle for `supabase.auth.signUp`: a fresh auth user id, the "User
already registered" error, or another signup error. -/
inductive SignUpOutcome where
  | ok (authUserId : String)
  | alreadyRegistered
  | err (msg : String)
deriving DecidableEq, Repr

structure ChatGPTDB where
  users : List UserProfile
  tenant_tokens : List (String × TenantTokenRecord)
deriving DecidableEq, Repr

/-- Errors thrown by the ChatGPT flow (each reaches the caller wrapped as
"ChatGPT authentication failed: ..."). -/
inductive ChatGPTError where
  | exchangeFailed
  | noAccessToken
  | userinfoFailed
  | noEmail
  | signUpFailed (msg : String)
  | criticalAuthState
  | profileInsertFailed
  | updateFailed
deriving DecidableEq, Repr

structure ChatGPTOutcome where
  result : Except ChatGPTError AuthResult
  db : ChatGPTDB
  exchangeCalls : Nat
deriving Repr

/-- `jwt.sign` on the payload of line 464, kept opaque. -/
def jwtSign (userId : String) : String := "jwt:" ++ userId

/-- Step 5 and step 6 of the source (lines 395-492): upsert the
credential into `tenant_tokens` (check-then-update-or-insert; a failure
is logged and **does not fail authentication**, lines 448-460) and return
the success result with the signed JWT. -/
def tenantTokensStep (db : ChatGPTDB) (finalUser : UserProfile)
    (tokens : OAuthTokens) (tenantWriteOk : Bool) : ChatGPTOutcome :=
  let credential : TenantTokenRecord :=
    ⟨tokens.access_token, tokens.refresh_token <|> finalUser.google_refresh_token,
      tokens.expiry_date⟩
  let db2 :=
    if tenantWriteOk then
      { db with tenant_tokens := upsertTenantToken db.tenant_tokens finalUser.id credential }
    else db
  ⟨.ok ⟨true, "ChatGPT authentication successful", some (jwtSign finalUser.id),
      some finalUser⟩, db2, 1⟩

/-- Steps 1-6 of the ChatGPT flow (lines 110-492): exchange the code,
fetch userinfo, resolve or create the `users` row (including the
"already registered" fallback that looks the user up by Google id,
lines 193-271), then store tenant tokens and sign the JWT. -/
def processChatGPTOAuth (db : ChatGPTDB) (exchange : ExchangeOutcome)
    (userinfo : Option GoogleUserInfo) (signUp : SignUpOutcome)
    (profileInsertOk updateOk tenantWriteOk : Bool) : ChatGPTOutcome :=
  match exchange with
  | .err => ⟨.error .exchangeFailed, db, 1⟩
  | .ok tokens =>
    match tokens.access_token with
    | none => ⟨.error .noAccessToken, db, 1⟩
    | some accessToken =>
      match userinfo with
      | none => ⟨.error .userinfoFailed, db, 1⟩
      | some googleUser =>
        match googleUser.email with
        | none => ⟨.error .noEmail, db, 1⟩
        | some email =>
          match db.users.find? (fun u => u.email == email) with
          | some existingUser =>
            let updatedUser : UserProfile :=
              { existingUser with
                full_name := googleUser.name.getD existingUser.full_name,
                google_id := some googleUser.id,
                avatar_url := googleUser.picture <|> existingUser.avatar_url,
                google_access_token := some accessToken,
                google_refresh_token :=
                  tokens.refresh_token <|> existingUser.google_refresh_token,
                token_expires_at := tokens.expiry_date }
            if updateOk then
              tenantTokensStep
                { db with users := db.users.map (fun u =>
                    if u.id == existingUser.id then updatedUser else u) }
                updatedUser tokens tenantWriteOk
            else ⟨.error .updateFailed, db, 1⟩
          | none =>
            match signUp with
            | .err msg => ⟨.error (.signUpFailed msg), db, 1⟩
            | .alreadyRegistered =>
              match db.users.find? (fun u => u.google_id == some googleUser.id) with
              | some userByGoogleId =>
                let updatedUser : UserProfile :=
                  { userByGoogleId with
                    full_name := googleUser.name.getD userByGoogleId.full_name,
                    avatar_url := googleUser.picture <|> userByGoogleId.avatar_url,
                    google_access_token := some accessToken,
                    google_refresh_token :=
                      tokens.refresh_token <|> userByGoogleId.google_refresh_token,
                    token_expires_at := tokens.expiry_date }
                if updateOk then
                  tenantTokensStep
                    { db with users := db.users.map (fun u =>
                        if u.id == userByGoogleId.id then updatedUser else u) }
                    updatedUser tokens tenantWriteOk
                else ⟨.error .updateFailed, db, 1⟩
              | none => ⟨.error .criticalAuthState, db, 1⟩
            | .ok authUserId =>
              let newProfile : UserProfile :=
                ⟨authUserId, email, googleUser.name.getD "", some googleUser.id,
                  googleUser.picture, some accessToken, tokens.refresh_token,
                  tokens.expiry_date⟩
              if profileInsertOk then
                tenantTokensStep { db with users := db.users ++ [newProfile] }
                  newProfile tokens tenantWriteOk
              else ⟨.error .profileInsertFailed, db, 1⟩

/-- `AuthService.handleGoogleOAuthCallback` (lines 79-506): when the
`state` argument parses as JSON with `type === 'telegram_oauth'`
(lines 85-108), return the redirect result immediately — no exchange, no
database access; otherwise run the ChatGPT flow. -/
def handleGoogleOAuthCallback (db : ChatGPTDB) (code baseUrl : String)
    (state : Option String) (parsedState : Option ParsedState)
    (exchange : ExchangeOutcome) (userinfo : Option GoogleUserInfo)
    (signUp : SignUpOutcome) (profileInsertOk updateOk tenantWriteOk : Bool) :
    ChatGPTOutcome :=
  let isTelegramRequest :=
    match state, parsedState with
    | some _, some ps => ps.type == "telegram_oauth"
    | _, _ => false
  if isTelegramRequest then
    ⟨.ok ⟨false, "Telegram OAuth request detected",
        some (baseUrl ++ "/api/auth/callback?code=" ++ code ++ "&state=" ++ state.getD ""),
        none⟩, db, 0⟩
  else processChatGPTOAuth db exchange userinfo signUp profileInsertOk updateOk tenantWriteOk

/-- **C7.** A callback whose matching PendingAuthorization rows are all
past `expires_at` is rejected as "Invalid or expired session" — even when
the presented session token matches the stored one exactly — because the
lookup filters on `expires_at > now`; the database is untouched and the
code is never exchanged. -/
theorem handleCallback_rejects_expired_session
    (db : HandshakeDB) (sd : StateData) (now : Int) (exchange : ExchangeOutcome)
    (googleUser : GoogleUserInfo) (newUserId : String) (o1 o2 o3 o4 : Bool)
    (htype : sd.type = "telegram_oauth")
    (hexpired : ∀ s ∈ db.telegram_sessions,
        s.telegram_chat_id = sd.telegram_chat_id → s.session_token = sd.session_token →
          s.expires_at ≤ now) :
    handleTelegramOAuthCallback db (some sd) now exchange googleUser newUserId
        o1 o2 o3 o4 =
      ⟨.error .invalidOrExpiredSession, db, 0, 0⟩ := by
  have hfind : db.telegram_sessions.find? (sessionMatches sd now) = none := by
    rw [List.find?_eq_none]
    intro s hs
    simp only [sessionMatches, Bool.and_eq_true, beq_iff_eq, decide_eq_true_eq]
    rintro ⟨⟨h1, h2⟩, h3⟩
    have := hexpired s hs h1 h2
    omega
  simp [handleTelegramOAuthCallback, htype, hfind]

/-- Witness for C7: a session whose token matches the state exactly but
whose `expires_at` equals the callback time. -/
theorem handleCallback_rejects_expired_session_witness :
    (∀ s ∈ [TelegramSession.mk 1 5 none "tok" 10], s.expires_at ≤ 10) ∧
      handleTelegramOAuthCallback ⟨[⟨1, 5, none, "tok", 10⟩], [], []⟩
          (some ⟨"telegram_oauth", 5, "tok"⟩) 10 .err ⟨"gid", none, none, none⟩
          "uid1" true true true true =
        ⟨.error .invalidOrExpiredSession, ⟨[⟨1, 5, none, "tok", 10⟩], [], []⟩, 0, 0⟩ :=
  ⟨by decide,
    handleCallback_rejects_expired_session ⟨[⟨1, 5, none, "tok", 10⟩], [], []⟩
      ⟨"telegram_oauth", 5, "tok"⟩ 10 .err ⟨"gid", none, none, none⟩ "uid1"
      true true true true rfl (by decide)⟩

/-- **C1 (amended).** `handleTelegramOAuthCallback` never marks a session
consumed: after a successful callback the session row still satisfies the
lookup filter, so a second callback with the same `(code, state)` before
`expires_at` passes the session check and reprocesses the whole handshake
— including another `tenant_tokens` credential write; a repeat callback
is rejected by the session machinery only once `expires_at` has passed. -/
theorem handleCallback_replay_before_expiry
    (s : TelegramSession) (u : TelegramUserRecord)
    (tokenRows : List (String × TenantTokenRecord))
    (sd : StateData) (now : Int) (tokens : OAuthTokens) (gu : GoogleUserInfo)
    (newUserId accessToken em : String)
    (htype : sd.type = "telegram_oauth")
    (hchat : s.telegram_chat_id = sd.telegram_chat_id)
    (htok : s.session_token = sd.session_token)
    (hfresh : now < s.expires_at)
    (haccess : tokens.access_token = some accessToken)
    (hemail : gu.email = some em)
    (huchat : u.telegram_chat_id = sd.telegram_chat_id) :
    (handleTelegramOAuthCallback ⟨[s], [u], tokenRows⟩ (some sd) now (.ok tokens) gu
        newUserId true true true true).result.isOk = true ∧
      (handleTelegramOAuthCallback
          (handleTelegramOAuthCallback ⟨[s], [u], tokenRows⟩ (some sd) now (.ok tokens)
            gu newUserId true true true true).db
          (some sd) now (.ok tokens) gu newUserId true true true true).result.isOk =
        true ∧
      (handleTelegramOAuthCallback
          (handleTelegramOAuthCallback ⟨[s], [u], tokenRows⟩ (some sd) now (.ok tokens)
            gu newUserId true true true true).db
          (some sd) now (.ok tokens) gu newUserId true true true true).tenantTokenWrites =
        1 := by
  simp [handleTelegramOAuthCallback, afterUserResolved, sessionMatches, List.find?,
    Except.isOk, Except.toBool, htype, hchat, htok, hfresh, haccess, hemail, huchat]

/-- Witness for C1 (amended) at concrete inputs. -/
theorem handleCallback_replay_before_expiry_witness :
    ((0 : Int) < 1000) ∧
      (handleTelegramOAuthCallback ⟨[⟨1, 5, none, "tok", 1000⟩], [⟨"uid0", 5, "Old", none, none⟩], []⟩
          (some ⟨"telegram_oauth", 5, "tok"⟩) 0
          (.ok ⟨some "acc", some "ref", some 9⟩) ⟨"gid", some "a@b", some "N", none⟩
          "uid1" true true true true).result.isOk = true ∧
      (handleTelegramOAuthCallback
          (handleTelegramOAuthCallback ⟨[⟨1, 5, none, "tok", 1000⟩], [⟨"uid0", 5, "Old", none, none⟩], []⟩
            (some ⟨"telegram_oauth", 5, "tok"⟩) 0
            (.ok ⟨some "acc", some "ref", some 9⟩) ⟨"gid", some "a@b", some "N", none⟩
            "uid1" true true true true).db
          (some ⟨"telegram_oauth", 5, "tok"⟩) 0
          (.ok ⟨some "acc", some "ref", some 9⟩) ⟨"gid", some "a@b", some "N", none⟩
          "uid1" true true true true).tenantTokenWrites = 1 := by
  have h := handleCallback_replay_before_expiry ⟨1, 5, none, "tok", 1000⟩
    ⟨"uid0", 5, "Old", none, none⟩ [] ⟨"telegram_oauth", 5, "tok"⟩ 0
    ⟨some "acc", some "ref", some 9⟩ ⟨"gid", some "a@b", some "N", none⟩
    "uid1" "acc" "a@b" rfl rfl rfl (by norm_num) rfl rfl rfl
  exact ⟨by norm_num, h.1, h.2.2⟩

/-- **C1 (counterexample).** A concrete double callback: the first call
succeeds and creates the Telegram user and credential; the second call
with the same `(code, state)` at the same time also **succeeds** (it is
not rejected as expired/consumed) and performs a second `tenant_tokens`
credential write — the claimed second-call failure does not happen. -/
theorem handleCallback_second_call_succeeds_again :
    (handleTelegramOAuthCallback ⟨[⟨1, 5, none, "tok", 1000⟩], [], []⟩
        (some ⟨"telegram_oauth", 5, "tok"⟩) 0
        (.ok ⟨some "acc", some "ref", some 9⟩) ⟨"gid", some "a@b", some "N", none⟩
        "uid1" true true true true).result.isOk = true ∧
      (handleTelegramOAuthCallback
          (handleTelegramOAuthCallback ⟨[⟨1, 5, none, "tok", 1000⟩], [], []⟩
            (some ⟨"telegram_oauth", 5, "tok"⟩) 0
            (.ok ⟨some "acc", some "ref", some 9⟩) ⟨"gid", some "a@b", some "N", none⟩
            "uid1" true true true true).db
          (some ⟨"telegram_oauth", 5, "tok"⟩) 0
          (.ok ⟨some "acc", some "ref", some 9⟩) ⟨"gid", some "a@b", some "N", none⟩
          "uid1" true true true true).result.isOk = true ∧
      (handleTelegramOAuthCallback
          (handleTelegramOAuthCallback ⟨[⟨1, 5, none, "tok", 1000⟩], [], []⟩
            (some ⟨"telegram_oauth", 5, "tok"⟩) 0
            (.ok ⟨some "acc", some "ref", some 9⟩) ⟨"gid", some "a@b", some "N", none⟩
            "uid1" true true true true).db
          (some ⟨"telegram_oauth", 5, "tok"⟩) 0
          (.ok ⟨some "acc", some "ref", some 9⟩) ⟨"gid", some "a@b", some "N", none⟩
          "uid1" true true true true).tenantTokenWrites = 1 := by
  refine ⟨rfl, rfl, rfl⟩

/-- **C4 (amended).** During handshake resolution only the
`telegram_users` / `users` row writes are checked: their failure aborts
the attempt with the database unchanged.  The `tenant_tokens` credential
write is *not* checked in either handler — its failure is swallowed, the
handshake still reports success, and the freshly committed user row is
left without any stored credential (partial state). -/
theorem handshake_partial_commit_behavior
    (db : HandshakeDB) (sd : StateData) (now : Int) (tokens : OAuthTokens)
    (gu : GoogleUserInfo) (newUserId accessToken em : String)
    (session : TelegramSession)
    (htype : sd.type = "telegram_oauth")
    (hfind : db.telegram_sessions.find? (sessionMatches sd now) = some session)
    (haccess : tokens.access_token = some accessToken)
    (hemail : gu.email = some em)
    (hnouser : db.telegram_users.find?
        (fun u => u.telegram_chat_id == sd.telegram_chat_id) = none) :
    (handleTelegramOAuthCallback db (some sd) now (.ok tokens) gu newUserId
        false true true true =
      ⟨.error .createUserFailed, db, 1, 0⟩) ∧
    ((handleTelegramOAuthCallback db (some sd) now (.ok tokens) gu newUserId
        true true true false).result.isOk = true ∧
      (handleTelegramOAuthCallback db (some sd) now (.ok tokens) gu newUserId
          true true true false).db.telegram_users =
        db.telegram_users ++ [⟨newUserId, sd.telegram_chat_id, gu.name.getD "", none, none⟩] ∧
      (handleTelegramOAuthCallback db (some sd) now (.ok tokens) gu newUserId
          true true true false).db.tenant_tokens = db.tenant_tokens ∧
      (handleTelegramOAuthCallback db (some sd) now (.ok tokens) gu newUserId
          true true true false).tenantTokenWrites = 0) ∧
    (∀ (cdb : ChatGPTDB) (tokens2 : OAuthTokens) (gu2 : GoogleUserInfo)
        (accessToken2 em2 : String) (existingUser : UserProfile)
        (signUp : SignUpOutcome) (pio : Bool),
      tokens2.access_token = some accessToken2 →
      gu2.email = some em2 →
      cdb.users.find? (fun u => u.email == em2) = some existingUser →
      ((processChatGPTOAuth cdb (.ok tokens2) (some gu2) signUp pio true
          false).result.isOk = true ∧
        (processChatGPTOAuth cdb (.ok tokens2) (some gu2) signUp pio true
            false).db.tenant_tokens = cdb.tenant_tokens)) := by
  refine ⟨?_, ?_, ?_⟩
  · simp [handleTelegramOAuthCallback, htype, hfind, haccess, hemail, hnouser]
  · simp [handleTelegramOAuthCallback, afterUserResolved, Except.isOk, Except.toBool,
      htype, hfind, haccess, hemail, hnouser]
  · intro cdb tokens2 gu2 accessToken2 em2 existingUser signUp pio ha2 he2 hfind2
    simp [processChatGPTOAuth, tenantTokensStep, Except.isOk, Except.toBool,
      ha2, he2, hfind2]

/-- Witness for C4 (amended) at concrete inputs (both handlers). -/
theorem handshake_partial_commit_behavior_witness :
    (HandshakeDB.mk [⟨1, 5, none, "tok", 1000⟩] [] []).telegram_sessions.find?
        (sessionMatches ⟨"telegram_oauth", 5, "tok"⟩ 0) = some ⟨1, 5, none, "tok", 1000⟩ ∧
      handleTelegramOAuthCallback ⟨[⟨1, 5, none, "tok", 1000⟩], [], []⟩
          (some ⟨"telegram_oauth", 5, "tok"⟩) 0
          (.ok ⟨some "acc", some "ref", some 9⟩) ⟨"gid", some "a@b", some "N", none⟩
          "uid1" false true true true =
        ⟨.error .createUserFailed, ⟨[⟨1, 5, none, "tok", 1000⟩], [], []⟩, 1, 0⟩ ∧
      (processChatGPTOAuth ⟨[⟨"u0", "a@b", "F", none, none, none, none, none⟩], []⟩
          (.ok ⟨some "acc", some "ref", some 9⟩) (some ⟨"gid", some "a@b", some "N", none⟩)
          .alreadyRegistered true true false).db.tenant_tokens = [] := by
  have h := handshake_partial_commit_behavior ⟨[⟨1, 5, none, "tok", 1000⟩], [], []⟩
    ⟨"telegram_oauth", 5, "tok"⟩ 0 ⟨some "acc", some "ref", some 9⟩
    ⟨"gid", some "a@b", some "N", none⟩ "uid1" "acc" "a@b" ⟨1, 5, none, "tok", 1000⟩
    rfl (by decide) rfl rfl (by decide)
  refine ⟨by decide, h.1, ?_⟩
  exact (h.2.2 ⟨[⟨"u0", "a@b", "F", none, none, none, none, none⟩], []⟩
    ⟨some "acc", some "ref", some 9⟩ ⟨"gid", some "a@b", some "N", none⟩
    "acc" "a@b" ⟨"u0", "a@b", "F", none, none, none, none, none⟩
    .alreadyRegistered true rfl rfl (by decide)).2

/-- **C4 (counterexample).** A concrete handshake in which the database
write of the credential (`tenant_tokens` upsert) fails: the attempt still
returns success and the newly created Telegram user row stays committed
with no credential row — partial state remains visible, refuting "the
whole handshake attempt fails and no partial state remains". -/
theorem handshake_succeeds_despite_credential_write_failure :
    (handleTelegramOAuthCallback ⟨[⟨1, 5, none, "tok", 1000⟩], [], []⟩
        (some ⟨"telegram_oauth", 5, "tok"⟩) 0
        (.ok ⟨some "acc", some "ref", some 9⟩) ⟨"gid", some "a@b", some "N", none⟩
        "uid1" true true true false).result.isOk = true ∧
      (handleTelegramOAuthCallback ⟨[⟨1, 5, none, "tok", 1000⟩], [], []⟩
          (some ⟨"telegram_oauth", 5, "tok"⟩) 0
          (.ok ⟨some "acc", some "ref", some 9⟩) ⟨"gid", some "a@b", some "N", none⟩
          "uid1" true true true false).db.telegram_users =
        [⟨"uid1", 5, "N", none, none⟩] ∧
      (handleTelegramOAuthCallback ⟨[⟨1, 5, none, "tok", 1000⟩], [], []⟩
          (some ⟨"telegram_oauth", 5, "tok"⟩) 0
          (.ok ⟨some "acc", some "ref", some 9⟩) ⟨"gid", some "a@b", some "N", none⟩
          "uid1" true true true false).db.tenant_tokens = [] :=
  ⟨rfl, rfl, rfl⟩

/-- **C10.** When the `state` argument of the ChatGPT OAuth callback
parses as JSON with `type === 'telegram_oauth'`, the handler returns
`success: false` with message "Telegram OAuth request detected" and the
redirect URL in the `token` field — without calling the token exchange
and without touching the database. -/
theorem chatgpt_callback_detects_telegram
    (db : ChatGPTDB) (code baseUrl rawState : String) (ps : ParsedState)
    (exchange : ExchangeOutcome) (userinfo : Option GoogleUserInfo)
    (signUp : SignUpOutcome) (o1 o2 o3 : Bool)
    (hps : ps.type = "telegram_oauth") :
    handleGoogleOAuthCallback db code baseUrl (some rawState) (some ps) exchange
        userinfo signUp o1 o2 o3 =
      ⟨.ok ⟨false, "Telegram OAuth request detected",
          some (baseUrl ++ "/api/auth/callback?code=" ++ code ++ "&state=" ++ rawState),
          none⟩, db, 0⟩ := by
  simp [handleGoogleOAuthCallback, hps]

/-- Witness for C10 at concrete inputs. -/
theorem chatgpt_callback_detects_telegram_witness :
    (ParsedState.mk "telegram_oauth").type = "telegram_oauth" ∧
      handleGoogleOAuthCallback ⟨[], []⟩ "thecode" "http://localhost:3000"
          (some "rawstate") (some ⟨"telegram_oauth"⟩) .err none (.err "x")
          true true true =
        ⟨.ok ⟨false, "Telegram OAuth request detected",
            some ("http://localhost:3000" ++ "/api/auth/callback?code=" ++ "thecode" ++
              "&state=" ++ "rawstate"), none⟩, ⟨[], []⟩, 0⟩ :=
  ⟨rfl,
    chatgpt_callback_detects_telegram ⟨[], []⟩ "thecode" "http://localhost:3000"
      "rawstate" ⟨"telegram_oauth"⟩ .err none (.err "x") true true true rfl⟩
